import Mathlib

/-!
Verification development for the conversational domain-mapping engine
(`packages/skills/src/skills/domain_mapping/skill.py` and its `models.py` /
`prompts.py` companions).  The Python code is shallowly embedded: pure
methods become Lean functions, in-place mutation of the per-session
`ConversationContext` becomes explicit state passing, Python dynamic-typing
failures (TypeError / KeyError / AttributeError / pydantic validation
errors) become an explicit `PyErr` value, and the Anthropic client is an
abstract gateway outcome parameter.
-/

namespace DomainMapping

/-! ## Python string primitives

Character-level models of the Python `str` operations the skill uses:
`in` (substring test), `str.find`, slicing, `str.strip`, `str.lower`.
Strings are handled as `List Char`, matching Python's code-point view.
-/

/-- Whitespace stripped by Python `str.strip()`:
space, tab, newline, carriage return, vertical tab, form feed. -/
def isPySpace (c : Char) : Bool :=
  c = ' ' || c = '\t' || c = '\n' || c = '\r' || c = Char.ofNat 11 || c = Char.ofNat 12

/-- Drop trailing characters satisfying `p`. -/
def dropTrailing (p : Char → Bool) (cs : List Char) : List Char :=
  (cs.reverse.dropWhile p).reverse

/-- Python `str.strip()` with no arguments. -/
def pyStrip (cs : List Char) : List Char :=
  dropTrailing isPySpace (cs.dropWhile isPySpace)

/-- Python substring containment `needle in hay`. -/
def containsSub (hay needle : List Char) : Bool :=
  match hay with
  | [] => needle.isEmpty
  | c :: t => needle.isPrefixOf (c :: t) || containsSub t needle

/-- Index of the first occurrence of `needle` in `hay`, if any. -/
def findSub (hay needle : List Char) : Option Nat :=
  match hay with
  | [] => if needle.isEmpty then some 0 else none
  | c :: t =>
    if needle.isPrefixOf (c :: t) then some 0
    else (findSub t needle).map (· + 1)

/-- Python `hay.find(needle, start)`: first index at or after `start`,
or `-1` when absent. -/
def pyFindFrom (hay needle : List Char) (start : Nat) : Int :=
  match findSub (hay.drop start) needle with
  | some i => ((start + i : Nat) : Int)
  | none => -1

/-- Python slice `cs[a:b]` (step 1), with negative-index normalisation. -/
def pySlice (cs : List Char) (a b : Int) : List Char :=
  let n : Int := (cs.length : Int)
  let a' : Int := if a < 0 then max (n + a) 0 else min a n
  let b' : Int := if b < 0 then max (n + b) 0 else min b n
  if a' < b' then (cs.take b'.toNat).drop a'.toNat else []

/-- Python `str.lower()` (ASCII behaviour, which is all the skill needs). -/
def pyLower (s : String) : String :=
  String.mk (s.data.map Char.toLower)

/-- `suffix` is a suffix of `s` (used to state "the prompt ends with ..."). -/
def strEndsWith (s suffix : String) : Bool :=
  suffix.data.isSuffixOf s.data

/-- String-level wrapper for the Python substring test. -/
def strContains (s sub : String) : Bool :=
  containsSub s.data sub.data

/-! ## JSON values

`skill.py` moves data around as the dynamic values produced by
`json.loads`; `Json` is their embedding.  Numbers are modelled as integers
(no claim involves JSON floats). -/

inductive Json where
  | null
  | bool (b : Bool)
  | num (n : Int)
  | str (s : String)
  | arr (elems : List Json)
  | obj (fields : List (String × Json))

/-- Lookup of a key in a JSON object; `none` for absent keys or non-objects. -/
def Json.lookup (j : Json) (k : String) : Option Json :=
  match j with
  | .obj kvs => (kvs.find? (fun kv => kv.1 = k)).map (·.2)
  | _ => none

/-! ### `json.loads` model: a fuel-indexed recursive-descent parser.

Faithful to the grammar on everything the skill's claims exercise
(objects, arrays, strings with the common escapes, integers, `null`,
booleans, whitespace, full-input consumption).  Deliberate simplifications,
none of which any claim touches: floats are not parsed and leading zeros
are not rejected. -/

/-- Whitespace accepted between JSON tokens (as in Python's `json`). -/
def isJsonWs (c : Char) : Bool :=
  c = ' ' || c = '\t' || c = '\n' || c = '\r'

def jsonSkipWs (cs : List Char) : List Char := cs.dropWhile isJsonWs

def hexDigitVal (c : Char) : Option Nat :=
  if '0' ≤ c ∧ c ≤ '9' then some (c.toNat - 48)
  else if 'a' ≤ c ∧ c ≤ 'f' then some (c.toNat - 87)
  else if 'A' ≤ c ∧ c ≤ 'F' then some (c.toNat - 55)
  else none

/-- Parse the body of a JSON string, the opening quote already consumed.
Returns the decoded string and the input after the closing quote. -/
def parseJsonString : Nat → List Char → Option (String × List Char)
  | 0, _ => none
  | _ + 1, [] => none
  | _ + 1, '"' :: rest => some ("", rest)
  | fuel + 1, '\\' :: esc =>
    match esc with
    | 'u' :: h1 :: h2 :: h3 :: h4 :: rest => do
      let d1 ← hexDigitVal h1
      let d2 ← hexDigitVal h2
      let d3 ← hexDigitVal h3
      let d4 ← hexDigitVal h4
      let (s, r) ← parseJsonString fuel rest
      some (String.mk (Char.ofNat (((d1 * 16 + d2) * 16 + d3) * 16 + d4) :: s.data), r)
    | e :: rest =>
      let decoded : Option Char :=
        if e = '"' then some '"'
        else if e = '\\' then some '\\'
        else if e = '/' then some '/'
        else if e = 'b' then some (Char.ofNat 8)
        else if e = 'f' then some (Char.ofNat 12)
        else if e = 'n' then some '\n'
        else if e = 'r' then some '\r'
        else if e = 't' then some '\t'
        else none
      match decoded with
      | some c => (parseJsonString fuel rest).map (fun p => (String.mk (c :: p.1.data), p.2))
      | none => none
    | [] => none
  | fuel + 1, c :: rest =>
    if c.toNat < 32 then none
    else (parseJsonString fuel rest).map (fun p => (String.mk (c :: p.1.data), p.2))

def digitsToNat (ds : List Char) : Nat :=
  ds.foldl (fun acc c => acc * 10 + (c.toNat - 48)) 0

mutual

def parseJsonValue : Nat → List Char → Option (Json × List Char)
  | 0, _ => none
  | fuel + 1, cs =>
    match jsonSkipWs cs with
    | [] => none
    | 'n' :: rest =>
      if ['u', 'l', 'l'].isPrefixOf rest then some (.null, rest.drop 3) else none
    | 't' :: rest =>
      if ['r', 'u', 'e'].isPrefixOf rest then some (.bool true, rest.drop 3) else none
    | 'f' :: rest =>
      if ['a', 'l', 's', 'e'].isPrefixOf rest then some (.bool false, rest.drop 4) else none
    | '"' :: rest => (parseJsonString (fuel + 1) rest).map (fun p => (.str p.1, p.2))
    | '[' :: rest =>
      match jsonSkipWs rest with
      | ']' :: r2 => some (.arr [], r2)
      | r1 => (parseJsonElems fuel r1).map (fun p => (.arr p.1, p.2))
    | '{' :: rest =>
      match jsonSkipWs rest with
      | '}' :: r2 => some (.obj [], r2)
      | r1 => (parseJsonMembers fuel r1).map (fun p => (.obj p.1, p.2))
    | '-' :: rest =>
      match rest.takeWhile Char.isDigit with
      | [] => none
      | ds => some (.num (-(digitsToNat ds : Int)), rest.dropWhile Char.isDigit)
    | c :: rest =>
      if c.isDigit then
        some (.num ((digitsToNat ((c :: rest).takeWhile Char.isDigit) : Nat) : Int),
              (c :: rest).dropWhile Char.isDigit)
      else none

def parseJsonElems : Nat → List Char → Option (List Json × List Char)
  | 0, _ => none
  | fuel + 1, cs => do
    let (v, r) ← parseJsonValue fuel cs
    match jsonSkipWs r with
    | ',' :: r2 => (parseJsonElems fuel r2).map (fun p => (v :: p.1, p.2))
    | ']' :: r2 => some ([v], r2)
    | _ => none

def parseJsonMembers : Nat → List Char → Option (List (String × Json) × List Char)
  | 0, _ => none
  | fuel + 1, cs =>
    match jsonSkipWs cs with
    | '"' :: rest => do
      let (k, r) ← parseJsonString (fuel + 1) rest
      match jsonSkipWs r with
      | ':' :: r2 => do
        let (v, r3) ← parseJsonValue fuel r2
        match jsonSkipWs r3 with
        | ',' :: r4 => (parseJsonMembers fuel r4).map (fun p => ((k, v) :: p.1, p.2))
        | '}' :: r4 => some ([(k, v)], r4)
        | _ => none
      | _ => none
    | _ => none

end

/-- Model of `json.loads`: `none` is a `json.JSONDecodeError`.  The fuel is
ample for any input of the given length. -/
def jsonLoads (s : String) : Option Json :=
  match parseJsonValue (2 * s.data.length + 4) s.data with
  | some (v, rest) => if (jsonSkipWs rest).isEmpty then some v else none
  | none => none

/-! ### `json.dumps` model (default separators `", "` and `": "`,
`ensure_ascii` escaping). -/

def hexDigitChar (n : Nat) : Char :=
  if n < 10 then Char.ofNat (48 + n) else Char.ofNat (87 + n)

def escapeJsonChar (c : Char) : List Char :=
  if c = '"' then ['\\', '"']
  else if c = '\\' then ['\\', '\\']
  else if c = '\n' then ['\\', 'n']
  else if c = '\t' then ['\\', 't']
  else if c = '\r' then ['\\', 'r']
  else if c.toNat = 8 then ['\\', 'b']
  else if c.toNat = 12 then ['\\', 'f']
  else if c.toNat < 32 || c.toNat > 126 then
    let n := c.toNat
    ['\\', 'u', hexDigitChar (n / 4096 % 16), hexDigitChar (n / 256 % 16),
     hexDigitChar (n / 16 % 16), hexDigitChar (n % 16)]
  else [c]

/-- Serialisation of a JSON string literal. -/
def dumpJsonStr (s : String) : String :=
  "\"" ++ String.mk (s.data.flatMap escapeJsonChar) ++ "\""

mutual

/-- Model of `json.dumps(x)` with default options. -/
def Json.dumps : Json → String
  | .null => "null"
  | .bool true => "true"
  | .bool false => "false"
  | .num n => toString n
  | .str s => dumpJsonStr s
  | .arr xs => "[" ++ dumpsList xs ++ "]"
  | .obj kvs => "\x7b" ++ dumpsObj kvs ++ "\x7d"

def dumpsList : List Json → String
  | [] => ""
  | [x] => Json.dumps x
  | x :: y :: xs => Json.dumps x ++ ", " ++ dumpsList (y :: xs)

def dumpsObj : List (String × Json) → String
  | [] => ""
  | [(k, v)] => dumpJsonStr k ++ ": " ++ Json.dumps v
  | (k, v) :: m :: kvs => dumpJsonStr k ++ ": " ++ Json.dumps v ++ ", " ++ dumpsObj (m :: kvs)

end

/-! ## Data model (`models.py`)

The pydantic models, as plain structures.  `FieldSchema`'s optional
configuration attributes (`options`, `validation`) and display hints are
omitted: no claim mentions them and they never influence control flow in
`skill.py`.  Everything the skill reads or writes is present. -/

/-- `GenericFieldType` from `models.py` (the full closed set; the member
whose value is `"structure"` is spelled `structureType` here because
`structure` is a Lean keyword). -/
inductive GenericFieldType where
  | text | textarea | richtext | markdown | code
  | number | range
  | boolean | select | multiselect | radio | checkbox
  | date | time | datetime
  | image | file | gallery | files
  | json | list | structureType | blocks
  | relation | relations
  | url | email | tel | color | location | tags
deriving DecidableEq

/-- The string value of each `GenericFieldType` member. -/
def GenericFieldType.value : GenericFieldType → String
  | .text => "text" | .textarea => "textarea" | .richtext => "richtext"
  | .markdown => "markdown" | .code => "code"
  | .number => "number" | .range => "range"
  | .boolean => "boolean" | .select => "select" | .multiselect => "multiselect"
  | .radio => "radio" | .checkbox => "checkbox"
  | .date => "date" | .time => "time" | .datetime => "datetime"
  | .image => "image" | .file => "file" | .gallery => "gallery" | .files => "files"
  | .json => "json" | .list => "list" | .structureType => "structure" | .blocks => "blocks"
  | .relation => "relation" | .relations => "relations"
  | .url => "url" | .email => "email" | .tel => "tel"
  | .color => "color" | .location => "location" | .tags => "tags"

/-- pydantic coercion of a payload string into `GenericFieldType`. -/
def GenericFieldType.ofString? (s : String) : Option GenericFieldType :=
  ([.text, .textarea, .richtext, .markdown, .code, .number, .range, .boolean,
    .select, .multiselect, .radio, .checkbox, .date, .time, .datetime, .image,
    .file, .gallery, .files, .json, .list, .structureType, .blocks, .relation,
    .relations, .url, .email, .tel, .color, .location, .tags] :
    List GenericFieldType).find? (fun t => t.value = s)

/-- `RelationshipType` from `models.py`.  (Note: the enum has no
`many-to-one` member.) -/
inductive RelationshipType where
  | one_to_one | one_to_many | many_to_many
deriving DecidableEq

def RelationshipType.value : RelationshipType → String
  | .one_to_one => "one-to-one"
  | .one_to_many => "one-to-many"
  | .many_to_many => "many-to-many"

def RelationshipType.ofString? (s : String) : Option RelationshipType :=
  ([.one_to_one, .one_to_many, .many_to_many] : List RelationshipType).find?
    (fun t => t.value = s)

/-- `ConversationState` from `models.py`. -/
inductive ConversationState where
  | initial
  | discovering_profession
  | discovering_entities
  | discovering_fields
  | discovering_relationships
  | validating
  | complete
deriving DecidableEq

/-- The string value of each state (the `str`-enum payload). -/
def ConversationState.value : ConversationState → String
  | .initial => "initial"
  | .discovering_profession => "discovering_profession"
  | .discovering_entities => "discovering_entities"
  | .discovering_fields => "discovering_fields"
  | .discovering_relationships => "discovering_relationships"
  | .validating => "validating"
  | .complete => "complete"

/-- Position of a state in the canonical linear order
`INITIAL = 0 … COMPLETE = 6` used by the monotonicity claim. -/
def ConversationState.index : ConversationState → Nat
  | .initial => 0
  | .discovering_profession => 1
  | .discovering_entities => 2
  | .discovering_fields => 3
  | .discovering_relationships => 4
  | .validating => 5
  | .complete => 6

/-- `FieldSchema` (id / name / label / type / required; the optional
configuration and display-hint attributes are omitted, see section note). -/
structure FieldSchema where
  id : String
  name : String
  label : String
  type : GenericFieldType
  required : Bool := false
deriving DecidableEq

/-- `EntitySchema` from `models.py`. -/
structure EntitySchema where
  id : String
  name : String
  plural_name : String
  description : Option String := none
  fields : List FieldSchema := []
  display_field : Option String := none
  icon : Option String := none
  color : Option String := none
  sortable : Option Bool := none
  timestamps : Option Bool := none
  slug_source : Option String := none
deriving DecidableEq

/-- `RelationshipSchema` from `models.py` (`from`/`to` aliases carry the
Python attribute names `from_entity`/`to_entity`). -/
structure RelationshipSchema where
  id : String
  type : RelationshipType
  from_entity : String
  to_entity : String
  label : String
  invers_label : Option String := none
  required : Option Bool := none
  cascade_delete : Option Bool := none
deriving DecidableEq

/-- One entry of `conversation_history` (a Python `Dict[str, str]` with
keys `role` and `content`). -/
structure ChatMessage where
  role : String
  content : String
deriving DecidableEq

/-- `ConversationContext` from `models.py`. -/
structure ConversationContext where
  session_id : String
  state : ConversationState := .initial
  profession : Option String := none
  portfolio_type : Option String := none
  discovered_entities : List EntitySchema := []
  discovered_relationships : List RelationshipSchema := []
  conversation_history : List ChatMessage := []
  needs_clarification : List String := []
  suggestions_made : List String := []
deriving DecidableEq

/-- `SchemaMetadata`; `datetime.now()` is modelled by a clock value
threaded into the turn functions. -/
structure SchemaMetadata where
  name : String
  description : Option String := none
  author : Option String := none
  created_at : Nat
  updated_at : Nat
deriving DecidableEq

/-- `ContentSchema` from `models.py`. -/
structure ContentSchema where
  version : String := "1.0.0"
  entities : List EntitySchema := []
  relationships : List RelationshipSchema := []
  metadata : SchemaMetadata
deriving DecidableEq

/-- `DomainMappingInput` from `models.py`.  The free-form `context` /
`initial_data` maps carry JSON values. -/
structure DomainMappingInput where
  user_message : String
  session_id : String
  context : Option (List (String × Json)) := none
  profession : Option String := none
  initial_data : Option (List (String × Json)) := none

/-- `DomainMappingResponse` from `models.py`.  `examples` keeps the raw
JSON objects (`List[Dict[str, Any]]`). -/
structure DomainMappingResponse where
  message : String
  suggested_questions : List String := []
  current_state : ConversationState
  content_schema : Option ContentSchema := none
  needs_input_on : Option (List String) := none
  examples : Option (List Json) := none

/-- The `type` tags of `StreamingResponse`; the order-invariant claim is
about the sequence of these tags. -/
inductive StreamEventType where
  | message | suggestion | schema_update | state_change | complete
deriving DecidableEq

/-! ## Python dynamic-typing failures

The skill lets several dynamically-typed operations run on whatever shape
`json.loads` returned; these are the exceptions they can raise. -/

inductive PyErr where
  | typeError (msg : String)
  | keyError (key : String)
  | attributeError (msg : String)
  | validationError (msg : String)
deriving DecidableEq

/-- Python `str(e)` for the exceptions above (`str` of a `KeyError` is the
`repr` of the missing key). -/
def PyErr.toStr : PyErr → String
  | .typeError m => m
  | .keyError k => "\x27" ++ k ++ "\x27"
  | .attributeError m => m
  | .validationError m => m

/-! ## Prompt templates and helpers (`prompts.py`)

Python's `TEMPLATE.format(...)` on a fixed literal is embedded as a Lean
function concatenating the literal's pieces around the interpolated
values. -/

def PROFESSION_DISCOVERY_PROMPT : String :=
  "The user is starting to build their portfolio. Help them identify their profession and portfolio type.\n\n" ++
  "Consider these common patterns:\n" ++
  "- Creative professionals (designer, artist, photographer)\n" ++
  "- Writers and content creators (author, blogger, journalist, poet)\n" ++
  "- Technical professionals (developer, data scientist, engineer)\n" ++
  "- Business professionals (consultant, marketer, entrepreneur)\n" ++
  "- Academic professionals (researcher, professor, teacher)\n" ++
  "- Service professionals (therapist, coach, trainer)\n\n" ++
  "Ask about:\n" ++
  "1. Their primary profession or field\n" ++
  "2. What they want to showcase (work samples, services, achievements, etc.)\n" ++
  "3. Their target audience (potential clients, employers, peers, etc.)\n\n" ++
  "Based on their response, suggest an appropriate portfolio structure."

def ENTITY_DISCOVERY_PROMPT (profession portfolio_type suggested_entities current_entities : String) : String :=
  "Based on the user being a " ++ profession ++ " who wants to create a " ++ portfolio_type ++
  " portfolio, help them discover what entities (content types) they need.\n\n" ++
  "Common entities for " ++ profession ++ ":\n" ++ suggested_entities ++ "\n\n" ++
  "Guide them to think about:\n" ++
  "1. Main content they want to showcase\n" ++
  "2. Supporting information (about, services, testimonials)\n" ++
  "3. How they want to organize their work\n" ++
  "4. Any unique requirements for their field\n\n" ++
  "Current entities discovered: " ++ current_entities ++ "\n\n" ++
  "Help them refine and expand this list based on their specific needs."

def FIELD_DISCOVERY_PROMPT (entity_name entity_description suggested_fields current_fields : String) : String :=
  "Now help the user define fields for the entity: " ++ entity_name ++ "\n\n" ++
  "This entity is described as: " ++ entity_description ++ "\n\n" ++
  "Suggest appropriate fields considering:\n" ++
  "1. Essential information (title, description, date, etc.)\n" ++
  "2. Media needs (images, documents, videos)\n" ++
  "3. Categorization (tags, categories, status)\n" ++
  "4. SEO and discoverability (slug, meta description)\n" ++
  "5. Relationships to other entities\n\n" ++
  "Common fields for similar entities:\n" ++ suggested_fields ++ "\n\n" ++
  "Current fields defined: " ++ current_fields ++ "\n\n" ++
  "Guide them to think about what information is truly necessary vs. nice-to-have."

def RELATIONSHIP_DISCOVERY_PROMPT (entities_list current_relationships : String) : String :=
  "Help the user define relationships between their entities.\n\n" ++
  "Current entities:\n" ++ entities_list ++ "\n\n" ++
  "Already defined relationships:\n" ++ current_relationships ++ "\n\n" ++
  "Guide them to consider:\n" ++
  "1. Which entities naturally connect (e.g., projects have categories, posts have authors)\n" ++
  "2. One-to-many vs many-to-many relationships\n" ++
  "3. Required vs optional relationships\n" ++
  "4. How users will navigate between related content\n\n" ++
  "Suggest logical relationships based on their portfolio structure."

def VALIDATION_PROMPT (entities_summary relationships_summary total_fields : String) : String :=
  "Review and validate the complete portfolio structure with the user.\n\n" ++
  "Generated schema summary:\n" ++
  "- Entities: " ++ entities_summary ++ "\n" ++
  "- Relationships: " ++ relationships_summary ++ "\n" ++
  "- Total fields: " ++ total_fields ++ "\n\n" ++
  "Check for:\n" ++
  "1. Missing essential entities or fields\n" ++
  "2. Overly complex structures that could be simplified\n" ++
  "3. Logical consistency in relationships\n" ++
  "4. Practical usability for content management\n\n" ++
  "Present the schema in a clear, understandable way and ask if they want to adjust anything."

/-- One entry of a profession template's `entities` list
(a `{"name": ..., "description": ...}` dict). -/
structure EntitySuggestion where
  name : String
  description : String
deriving DecidableEq

/-- One entry of a profession template's `common_fields` lists
(a `{"name": ..., "type": ..., "required": ...}` dict). -/
structure FieldSuggestion where
  name : String
  type : String
  required : Bool
deriving DecidableEq

/-- One value of `get_profession_templates()`. -/
structure ProfessionTemplate where
  portfolio_type : String
  entities : List EntitySuggestion
  common_fields : List (String × List FieldSuggestion)

/-- `get_profession_templates()` from `prompts.py`. -/
def profession_templates : List (String × ProfessionTemplate) := [
  ("writer",
   { portfolio_type := "Writing Portfolio",
     entities := [
       ⟨"Book", "Published or upcoming books"⟩,
       ⟨"Article", "Blog posts, articles, essays"⟩,
       ⟨"Publication", "Where works are published"⟩,
       ⟨"Event", "Readings, workshops, conferences"⟩,
       ⟨"Award", "Recognition and achievements"⟩],
     common_fields := [
       ("Book", [
         ⟨"title", "text", true⟩,
         ⟨"synopsis", "textarea", true⟩,
         ⟨"cover_image", "image", true⟩,
         ⟨"genre", "select", true⟩,
         ⟨"publication_date", "date", false⟩,
         ⟨"isbn", "text", false⟩,
         ⟨"purchase_links", "list", false⟩])] }),
  ("designer",
   { portfolio_type := "Design Portfolio",
     entities := [
       ⟨"Project", "Design projects and case studies"⟩,
       ⟨"Client", "Clients you\x27ve worked with"⟩,
       ⟨"Service", "Design services offered"⟩,
       ⟨"Testimonial", "Client feedback"⟩,
       ⟨"Tool", "Design tools and technologies"⟩],
     common_fields := [
       ("Project", [
         ⟨"title", "text", true⟩,
         ⟨"description", "richtext", true⟩,
         ⟨"featured_image", "image", true⟩,
         ⟨"gallery", "gallery", false⟩,
         ⟨"project_type", "select", true⟩,
         ⟨"year", "number", true⟩,
         ⟨"tools_used", "multiselect", false⟩])] }),
  ("photographer",
   { portfolio_type := "Photography Portfolio",
     entities := [
       ⟨"Gallery", "Photo collections or series"⟩,
       ⟨"Photo", "Individual photographs"⟩,
       ⟨"Exhibition", "Shows and exhibitions"⟩,
       ⟨"Client", "Commercial clients"⟩,
       ⟨"Category", "Photography categories"⟩],
     common_fields := [
       ("Photo", [
         ⟨"title", "text", true⟩,
         ⟨"image", "image", true⟩,
         ⟨"description", "textarea", false⟩,
         ⟨"location", "location", false⟩,
         ⟨"date_taken", "date", true⟩,
         ⟨"camera_settings", "json", false⟩,
         ⟨"tags", "tags", false⟩])] }),
  ("developer",
   { portfolio_type := "Developer Portfolio",
     entities := [
       ⟨"Project", "Software projects and applications"⟩,
       ⟨"Skill", "Technical skills and proficiencies"⟩,
       ⟨"Experience", "Work experience and positions"⟩,
       ⟨"BlogPost", "Technical articles and tutorials"⟩,
       ⟨"Certification", "Professional certifications"⟩],
     common_fields := [
       ("Project", [
         ⟨"name", "text", true⟩,
         ⟨"description", "markdown", true⟩,
         ⟨"screenshot", "image", false⟩,
         ⟨"tech_stack", "multiselect", true⟩,
         ⟨"github_url", "url", false⟩,
         ⟨"live_url", "url", false⟩,
         ⟨"status", "select", true⟩])] }),
  ("artist",
   { portfolio_type := "Art Portfolio",
     entities := [
       ⟨"Artwork", "Individual art pieces"⟩,
       ⟨"Collection", "Series or collections of work"⟩,
       ⟨"Exhibition", "Shows and exhibitions"⟩,
       ⟨"Commission", "Commissioned works"⟩,
       ⟨"Medium", "Artistic mediums and techniques"⟩],
     common_fields := [
       ("Artwork", [
         ⟨"title", "text", true⟩,
         ⟨"image", "image", true⟩,
         ⟨"description", "richtext", true⟩,
         ⟨"medium", "select", true⟩,
         ⟨"dimensions", "text", false⟩,
         ⟨"year_created", "number", true⟩,
         ⟨"price", "number", false⟩,
         ⟨"availability", "select", false⟩])] })]

/-- `self.profession_templates.get(key, {})` (the `{}` default shows up as
`none`, whose `.get("entities", [])` etc. yield the empty defaults). -/
def lookupTemplate (key : String) : Option ProfessionTemplate :=
  (profession_templates.find? (fun kv => kv.1 = key)).map (·.2)

/-- One suggestion produced by `get_relationship_suggestions`
(a dict with keys `from`, `to`, `type`, `label`, in that insertion
order). -/
structure RelSuggestion where
  fromName : String
  toName : String
  type : String
  label : String
deriving DecidableEq

/-- The `patterns` table inside `get_relationship_suggestions`. -/
def relationshipPatterns : List (List String × RelSuggestion) := [
  (["Project", "Client"], ⟨"Project", "Client", "many-to-one", "created for"⟩),
  (["Project", "Category"], ⟨"Project", "Category", "many-to-many", "categorized as"⟩),
  (["BlogPost", "Tag"], ⟨"BlogPost", "Tag", "many-to-many", "tagged with"⟩),
  (["Photo", "Gallery"], ⟨"Photo", "Gallery", "many-to-many", "included in"⟩),
  (["Artwork", "Collection"], ⟨"Artwork", "Collection", "many-to-many", "part of"⟩),
  (["Book", "Publication"], ⟨"Book", "Publication", "many-to-one", "published by"⟩),
  (["Project", "Testimonial"], ⟨"Testimonial", "Project", "many-to-one", "about"⟩),
  (["Experience", "Skill"], ⟨"Experience", "Skill", "many-to-many", "utilized"⟩)]

/-- `get_relationship_suggestions` from `prompts.py`. -/
def get_relationship_suggestions (entities : List String) : List RelSuggestion :=
  (relationshipPatterns.filter (fun p => p.1.all (fun e => entities.contains e))).map (·.2)

/-! ### `json.dumps(..., indent=2)` for the three suggestion shapes. -/

def dumpsIndentEntitySuggestions (xs : List EntitySuggestion) : String :=
  match xs with
  | [] => "[]"
  | _ =>
    "[\n" ++
    String.intercalate ",\n" (xs.map (fun e =>
      "  \x7b\n    \"name\": " ++ dumpJsonStr e.name ++
      ",\n    \"description\": " ++ dumpJsonStr e.description ++ "\n  \x7d")) ++
    "\n]"

def dumpsIndentFieldSuggestions (xs : List FieldSuggestion) : String :=
  match xs with
  | [] => "[]"
  | _ =>
    "[\n" ++
    String.intercalate ",\n" (xs.map (fun f =>
      "  \x7b\n    \"name\": " ++ dumpJsonStr f.name ++
      ",\n    \"type\": " ++ dumpJsonStr f.type ++
      ",\n    \"required\": " ++ (if f.required then "true" else "false") ++ "\n  \x7d")) ++
    "\n]"

def dumpsIndentRelSuggestions (xs : List RelSuggestion) : String :=
  match xs with
  | [] => "[]"
  | _ =>
    "[\n" ++
    String.intercalate ",\n" (xs.map (fun r =>
      "  \x7b\n    \"from\": " ++ dumpJsonStr r.fromName ++
      ",\n    \"to\": " ++ dumpJsonStr r.toName ++
      ",\n    \"type\": " ++ dumpJsonStr r.type ++
      ",\n    \"label\": " ++ dumpJsonStr r.label ++ "\n  \x7d")) ++
    "\n]"

/-- `format_entity_summary`, applied to `e.model_dump()` dicts.  A dump
always contains the `description` key, so `entity.get("description",
"No description")` returns the stored value even when it is `None`; the
f-string then renders the Python literal `None`. -/
def format_entity_summary (entities : List EntitySchema) : String :=
  match entities with
  | [] => "No entities defined yet"
  | _ =>
    String.intercalate "\n" (entities.map (fun e =>
      "- " ++ e.name ++ ": " ++
      (match e.description with
       | some d => d
       | none => "None") ++
      " (" ++ toString e.fields.length ++ " fields)"))

/-- `format_relationship_summary`, applied to `r.model_dump()` dicts.
`model_dump()` (without `by_alias=True`) emits the attribute names
`from_entity` / `to_entity`, so the very first `rel["from"]` lookup
raises `KeyError: "from"` whenever the list is non-empty. -/
def format_relationship_summary (relationships : List RelationshipSchema) : Except PyErr String :=
  match relationships with
  | [] => .ok "No relationships defined yet"
  | _ => .error (.keyError "from")

/-! ## State machine (`DomainMappingSkill._determine_next_state`) -/

/-- Python truthiness of an `Optional[str]` (`if context.profession:`):
present and non-empty. -/
def pyTruthyOptStr (o : Option String) : Bool :=
  match o with
  | some s => !s.isEmpty
  | none => false

/-- `any(word in user_message.lower() for word in words)`. -/
def anyKeywordIn (user_message : String) (words : List String) : Bool :=
  words.any (fun w => containsSub (pyLower user_message).data w.data)

/-- `_determine_next_state` from `skill.py` (lines 261-298).  The Python
method mutates `context.state` in place and returns the same object; here
the updated context is returned. -/
def determine_next_state (context : ConversationContext) (user_message : String) :
    ConversationContext :=
  match context.state with
  | .initial => { context with state := .discovering_profession }
  | .discovering_profession =>
    if pyTruthyOptStr context.profession then
      { context with state := .discovering_entities }
    else context
  | .discovering_entities =>
    if context.discovered_entities.length > 0 &&
        anyKeywordIn user_message ["enough", "done", "next", "continue"] then
      { context with state := .discovering_fields }
    else context
  | .discovering_fields =>
    if context.discovered_entities.all (fun e => e.fields.length > 0) then
      { context with state := .discovering_relationships }
    else context
  | .discovering_relationships =>
    if anyKeywordIn user_message ["done", "finish", "complete", "validate"] then
      { context with state := .validating }
    else context
  | .validating =>
    if anyKeywordIn user_message ["confirm", "yes", "looks good", "perfect"] then
      { context with state := .complete }
    else context
  | .complete => context

/-! ## Prompt builder (`DomainMappingSkill._generate_prompt_for_state`)

Returns `Except` because two dynamic failures are reachable: in the
`VALIDATING` branch `format_relationship_summary` raises `KeyError`
whenever a relationship has been discovered.  The method is called
outside any `try` block, so such an error escapes the whole turn. -/

def generate_prompt_for_state (context : ConversationContext) (user_message : String) :
    Except PyErr String :=
  match context.state with
  | .discovering_profession =>
    .ok (PROFESSION_DISCOVERY_PROMPT ++ "\n\nUser said: " ++ user_message)
  | .discovering_entities =>
    let profession := match context.profession with
      | some p => if p.isEmpty then "professional" else p
      | none => "professional"
    let portfolio_type := match context.portfolio_type with
      | some p => if p.isEmpty then "portfolio" else p
      | none => "portfolio"
    let suggested_entities := dumpsIndentEntitySuggestions
      (match lookupTemplate (pyLower profession) with
       | some t => t.entities
       | none => [])
    let current_entities := context.discovered_entities.map (fun e => e.name)
    .ok (ENTITY_DISCOVERY_PROMPT profession portfolio_type suggested_entities
          (match current_entities with
           | [] => "None yet"
           | _ => String.intercalate ", " current_entities) ++
         "\n\nUser said: " ++ user_message)
  | .discovering_fields =>
    -- the loop-with-break selects the first entity with no fields
    match context.discovered_entities.find? (fun e => e.fields.length == 0) with
    | some entity =>
      let suggested_fields := dumpsIndentFieldSuggestions
        (match lookupTemplate (pyLower ((context.profession).getD "")) with
         | some t => ((t.common_fields.find? (fun kv => kv.1 = entity.name)).map (·.2)).getD []
         | none => [])
      .ok (FIELD_DISCOVERY_PROMPT entity.name ((entity.description).getD "")
            suggested_fields "None yet" ++ "\n\nUser said: " ++ user_message)
    | none =>
      -- `if entity_needing_fields:` fails and control falls to line 376
      .ok ("Continue the conversation based on the current context.\n\nUser said: " ++
           user_message)
  | .discovering_relationships =>
    let entities_list := context.discovered_entities.map (fun e => e.name)
    let suggestions := get_relationship_suggestions entities_list
    let current_rels := context.discovered_relationships.map
      (fun r => r.from_entity ++ " -> " ++ r.to_entity)
    -- In the source, the `+ f"\n\nUser said: {user_message}"` that follows
    -- sits on a fresh line after the `return` expression is already
    -- complete, so it is an unreachable statement: the returned prompt
    -- ends with the suggested-relationships dump instead.
    .ok (RELATIONSHIP_DISCOVERY_PROMPT
          (String.intercalate ", " entities_list)
          (match current_rels with
           | [] => "None yet"
           | _ => String.intercalate ", " current_rels) ++
         "\n\nSuggested relationships: " ++ dumpsIndentRelSuggestions suggestions)
  | .validating =>
    match format_relationship_summary context.discovered_relationships with
    | .error e => .error e
    | .ok relationships_summary =>
      .ok (VALIDATION_PROMPT
            (format_entity_summary context.discovered_entities)
            relationships_summary
            (toString (context.discovered_entities.map (fun e => e.fields.length)).sum) ++
           "\n\nUser said: " ++ user_message)
  | .initial =>
    .ok ("Continue the conversation based on the current context.\n\nUser said: " ++
         user_message)
  | .complete =>
    .ok ("Continue the conversation based on the current context.\n\nUser said: " ++
         user_message)

/-! ## Response interpreter (`DomainMappingSkill._parse_claude_response`) -/

/-- The extraction step of `_parse_claude_response` (lines 381-388): when
a ```` ```json ```` fence is present, the text between it and the next
```` ``` ```` (to the last character when unterminated, as Python's
`find = -1` slice does), stripped; otherwise the whole text, stripped. -/
def extract_json_str (response_text : String) : String :=
  let t := response_text.data
  if containsSub t ("```json".data) then
    let json_start : Int := pyFindFrom t ("```json".data) 0 + 7
    let json_end : Int := pyFindFrom t ("```".data) json_start.toNat
    String.mk (pyStrip (pySlice t json_start json_end))
  else
    String.mk (pyStrip t)

/-- `_parse_claude_response` (lines 378-397): fence extraction, then
`json.loads`, degrading to the raw-text pseudo-result on a decode
error. -/
def parse_claude_response (response_text : String) : Json :=
  match jsonLoads (extract_json_str response_text) with
  | some v => v
  | none =>
    .obj [("message", .str response_text),
          ("suggested_questions", .arr []),
          ("current_state", .str "unknown")]

/-! ## Dynamic-value operations used by the merge and response code

`response_data` is whatever `json.loads` produced, and the skill runs
ordinary Python operations on it; these model `in`, `[...]`, iteration and
`.get` on such a value. -/

/-- Python `k in j`: key test on dicts, membership on lists, substring on
strings, `TypeError` otherwise. -/
def pyIn (k : String) (j : Json) : Except PyErr Bool :=
  match j with
  | .obj kvs => .ok (kvs.any (fun kv => kv.1 = k))
  | .arr xs => .ok (xs.any (fun x => match x with | .str s => s = k | _ => false))
  | .str s => .ok (strContains s k)
  | _ => .error (.typeError "argument of type is not iterable")

/-- Python `j[k]` with a string key. -/
def pySubscript (j : Json) (k : String) : Except PyErr Json :=
  match j with
  | .obj kvs =>
    match kvs.find? (fun kv => kv.1 = k) with
    | some kv => .ok kv.2
    | none => .error (.keyError k)
  | .arr _ => .error (.typeError "list indices must be integers or slices, not str")
  | .str _ => .error (.typeError "string indices must be integers")
  | _ => .error (.typeError "object is not subscriptable")

/-- Python `for x in j`: elements of a list, characters of a string, keys
of a dict, `TypeError` otherwise. -/
def pyIterMembers (j : Json) : Except PyErr (List Json) :=
  match j with
  | .arr xs => .ok xs
  | .str s => .ok (s.data.map (fun c => .str (String.mk [c])))
  | .obj kvs => .ok (kvs.map (fun kv => Json.str kv.1))
  | _ => .error (.typeError "object is not iterable")

/-- Python `j.get(k, default)`: defined on dicts only; every other
`json.loads` result lacks a `.get` attribute. -/
def pyGet (j : Json) (k : String) (default : Json) : Except PyErr Json :=
  match j with
  | .obj kvs => .ok ((((kvs.find? (fun kv => kv.1 = k))).map (·.2)).getD default)
  | .arr _ => .error (.attributeError "\x27list\x27 object has no attribute \x27get\x27")
  | .str _ => .error (.attributeError "\x27str\x27 object has no attribute \x27get\x27")
  | .num _ => .error (.attributeError "\x27int\x27 object has no attribute \x27get\x27")
  | .bool _ => .error (.attributeError "\x27bool\x27 object has no attribute \x27get\x27")
  | .null => .error (.attributeError "\x27NoneType\x27 object has no attribute \x27get\x27")

/-! ### pydantic construction of schema objects from payload dicts

`EntitySchema(**entity_data)` / `RelationshipSchema(**rel_data)`.  With
`populate_by_name = True` both the alias and the attribute name are
accepted for aliased fields; a failed validation raises (caught by the
orchestrator's generic handler). -/

def requireStrField (j : Json) (k : String) : Except PyErr String :=
  match j.lookup k with
  | some (.str s) => .ok s
  | _ => .error (.validationError k)

def requireStrAliased (j : Json) (aliasKey attr : String) : Except PyErr String :=
  match j.lookup aliasKey with
  | some (.str s) => .ok s
  | some _ => .error (.validationError aliasKey)
  | none =>
    match j.lookup attr with
    | some (.str s) => .ok s
    | _ => .error (.validationError aliasKey)

def optStrField (j : Json) (k : String) : Except PyErr (Option String) :=
  match j.lookup k with
  | none => .ok none
  | some .null => .ok none
  | some (.str s) => .ok (some s)
  | some _ => .error (.validationError k)

def optStrAliased (j : Json) (aliasKey attr : String) : Except PyErr (Option String) :=
  match j.lookup aliasKey with
  | some .null => .ok none
  | some (.str s) => .ok (some s)
  | some _ => .error (.validationError aliasKey)
  | none => optStrField j attr

def optBoolField (j : Json) (k : String) : Except PyErr (Option Bool) :=
  match j.lookup k with
  | none => .ok none
  | some .null => .ok none
  | some (.bool b) => .ok (some b)
  | some _ => .error (.validationError k)

def optBoolAliased (j : Json) (aliasKey attr : String) : Except PyErr (Option Bool) :=
  match j.lookup aliasKey with
  | some .null => .ok none
  | some (.bool b) => .ok (some b)
  | some _ => .error (.validationError aliasKey)
  | none => optBoolField j attr

/-- `FieldSchema(**field_data)` (for the nested `fields` list). -/
def fieldFromJson (j : Json) : Except PyErr FieldSchema := do
  match j with
  | .obj _ =>
    let id ← requireStrField j "id"
    let name ← requireStrField j "name"
    let label ← requireStrField j "label"
    let tval ← requireStrField j "type"
    let type ← match GenericFieldType.ofString? tval with
      | some t => Except.ok t
      | none => Except.error (PyErr.validationError "type")
    let required ← match j.lookup "required" with
      | none => Except.ok false
      | some (.bool b) => Except.ok b
      | some _ => Except.error (PyErr.validationError "required")
    Except.ok { id := id, name := name, label := label, type := type, required := required }
  | _ => Except.error (.validationError "field is not a dict")

/-- `EntitySchema(**entity_data)`. -/
def entityFromJson (j : Json) : Except PyErr EntitySchema := do
  match j with
  | .obj _ =>
    let id ← requireStrField j "id"
    let name ← requireStrField j "name"
    let plural_name ← requireStrAliased j "pluralName" "plural_name"
    let description ← optStrField j "description"
    let fields ← match j.lookup "fields" with
      | none => Except.ok ([] : List FieldSchema)
      | some (.arr xs) => xs.mapM fieldFromJson
      | some _ => Except.error (PyErr.validationError "fields")
    let display_field ← optStrAliased j "displayField" "display_field"
    let icon ← optStrField j "icon"
    let color ← optStrField j "color"
    let sortable ← optBoolField j "sortable"
    let timestamps ← optBoolField j "timestamps"
    let slug_source ← optStrAliased j "slugSource" "slug_source"
    Except.ok { id := id, name := name, plural_name := plural_name,
                description := description, fields := fields,
                display_field := display_field, icon := icon, color := color,
                sortable := sortable, timestamps := timestamps,
                slug_source := slug_source }
  | _ => Except.error (.typeError "argument after ** must be a mapping")

/-- `RelationshipSchema(**rel_data)`. -/
def relationshipFromJson (j : Json) : Except PyErr RelationshipSchema := do
  match j with
  | .obj _ =>
    let id ← requireStrField j "id"
    let tval ← requireStrField j "type"
    let type ← match RelationshipType.ofString? tval with
      | some t => Except.ok t
      | none => Except.error (PyErr.validationError "type")
    let from_entity ← requireStrAliased j "from" "from_entity"
    let to_entity ← requireStrAliased j "to" "to_entity"
    let label ← requireStrField j "label"
    let invers_label ← optStrAliased j "inversLabel" "invers_label"
    let required ← optBoolField j "required"
    let cascade_delete ← optBoolAliased j "cascadeDelete" "cascade_delete"
    Except.ok { id := id, type := type, from_entity := from_entity,
                to_entity := to_entity, label := label,
                invers_label := invers_label, required := required,
                cascade_delete := cascade_delete }
  | _ => Except.error (.typeError "argument after ** must be a mapping")

/-! ## Merge semantics (`DomainMappingSkill._update_context_from_response`) -/

/-- `list.index(a)`: index of the first element equal to `a` (the call
sites guarantee membership, where Python would otherwise raise). -/
def listIdxOf {α : Type _} [DecidableEq α] : List α → α → Nat
  | [], _ => 0
  | x :: xs, a => if x = a then 0 else listIdxOf xs a + 1

/-- The entity branch of the merge (lines 413-426): replace in place when
an entity with the same id exists, else append. -/
def mergeEntity (es : List EntitySchema) (entity : EntitySchema) : List EntitySchema :=
  match es.find? (fun e => e.id = entity.id) with
  | some existing => es.set (listIdxOf es existing) entity
  | none => es ++ [entity]

/-- The relationship branch of the merge (lines 430-438): skip when a
relationship with the same id exists, else append. -/
def mergeRelationship (rs : List RelationshipSchema) (relationship : RelationshipSchema) :
    List RelationshipSchema :=
  match rs.find? (fun r => r.id = relationship.id) with
  | some _ => rs
  | none => rs ++ [relationship]

/-- Sequential merge of the decoded `entities` payload items; an item that
fails validation aborts the loop, keeping the mutations already made. -/
def mergeEntitiesFromPayload (context : ConversationContext) :
    List Json → ConversationContext × Option PyErr
  | [] => (context, none)
  | j :: rest =>
    match entityFromJson j with
    | .error e => (context, some e)
    | .ok entity =>
      mergeEntitiesFromPayload
        { context with discovered_entities := mergeEntity context.discovered_entities entity }
        rest

/-- Sequential merge of the decoded `relationships` payload items. -/
def mergeRelationshipsFromPayload (context : ConversationContext) :
    List Json → ConversationContext × Option PyErr
  | [] => (context, none)
  | j :: rest =>
    match relationshipFromJson j with
    | .error e => (context, some e)
    | .ok relationship =>
      mergeRelationshipsFromPayload
        { context with discovered_relationships :=
            mergeRelationship context.discovered_relationships relationship }
        rest

/-- Sequencing of the mutating steps: an exception stops later steps but
keeps earlier in-place mutations. -/
def thenStep (r : ConversationContext × Option PyErr)
    (f : ConversationContext → ConversationContext × Option PyErr) :
    ConversationContext × Option PyErr :=
  match r with
  | (ctx, some e) => (ctx, some e)
  | (ctx, none) => f ctx

def stepEntities (response_data : Json) (context : ConversationContext) :
    ConversationContext × Option PyErr :=
  match pyIn "entities" response_data with
  | .error e => (context, some e)
  | .ok false => (context, none)
  | .ok true =>
    match pySubscript response_data "entities" with
    | .error e => (context, some e)
    | .ok v =>
      match pyIterMembers v with
      | .error e => (context, some e)
      | .ok items => mergeEntitiesFromPayload context items

def stepRelationships (response_data : Json) (context : ConversationContext) :
    ConversationContext × Option PyErr :=
  match pyIn "relationships" response_data with
  | .error e => (context, some e)
  | .ok false => (context, none)
  | .ok true =>
    match pySubscript response_data "relationships" with
    | .error e => (context, some e)
    | .ok v =>
      match pyIterMembers v with
      | .error e => (context, some e)
      | .ok items => mergeRelationshipsFromPayload context items

/-- `context.profession = response_data["profession"]`.  The context model
types `profession` as `Option String`; a payload value of any other shape
(which Python would store unvalidated, `validate_assignment` being off) is
flagged as a model-level validation error — no claim exercises such a
value. -/
def stepProfession (response_data : Json) (context : ConversationContext) :
    ConversationContext × Option PyErr :=
  match pyIn "profession" response_data with
  | .error e => (context, some e)
  | .ok false => (context, none)
  | .ok true =>
    match pySubscript response_data "profession" with
    | .error e => (context, some e)
    | .ok (.str s) => ({ context with profession := some s }, none)
    | .ok .null => ({ context with profession := none }, none)
    | .ok _ => (context, some (.validationError "profession"))

def stepPortfolioType (response_data : Json) (context : ConversationContext) :
    ConversationContext × Option PyErr :=
  match pyIn "portfolio_type" response_data with
  | .error e => (context, some e)
  | .ok false => (context, none)
  | .ok true =>
    match pySubscript response_data "portfolio_type" with
    | .error e => (context, some e)
    | .ok (.str s) => ({ context with portfolio_type := some s }, none)
    | .ok .null => ({ context with portfolio_type := none }, none)
    | .ok _ => (context, some (.validationError "portfolio_type"))

def stepNeedsInput (response_data : Json) (context : ConversationContext) :
    ConversationContext × Option PyErr :=
  match pyIn "needs_input_on" response_data with
  | .error e => (context, some e)
  | .ok false => (context, none)
  | .ok true =>
    match pySubscript response_data "needs_input_on" with
    | .error e => (context, some e)
    | .ok (.arr xs) =>
      match xs.mapM (fun x => match x with | Json.str s => some s | _ => none) with
      | some l => ({ context with needs_clarification := l }, none)
      | none => (context, some (.validationError "needs_input_on"))
    | .ok _ => (context, some (.validationError "needs_input_on"))

/-- `_update_context_from_response` (lines 399-450).  The serialised
payload is appended to the history first, unconditionally; then the
entity / relationship / profession / portfolio-type / clarification
updates run in source order.  The returned context keeps every mutation
made before a raised exception. -/
def update_context_from_response (context : ConversationContext) (response_data : Json) :
    ConversationContext × Option PyErr :=
  let context := { context with conversation_history :=
    context.conversation_history ++ [⟨"assistant", Json.dumps response_data⟩] }
  thenStep (stepEntities response_data context) fun c1 =>
  thenStep (stepRelationships response_data c1) fun c2 =>
  thenStep (stepProfession response_data c2) fun c3 =>
  thenStep (stepPortfolioType response_data c3) fun c4 =>
  stepNeedsInput response_data c4

/-! ## Schema assembly (`DomainMappingSkill._build_content_schema`) -/

/-- `_build_content_schema`; `now` stands for `datetime.now()`, and a
`None` profession / portfolio type renders as the literal `None` inside
the f-strings. -/
def build_content_schema (context : ConversationContext) (now : Nat) : ContentSchema :=
  { version := "1.0.0"
    entities := context.discovered_entities
    relationships := context.discovered_relationships
    metadata :=
      { name := (match context.profession with | some p => p | none => "None") ++
          " Portfolio Schema"
        description := some ("Content schema for " ++
          (match context.portfolio_type with | some p => p | none => "None"))
        author := some "Domain Mapping Skill"
        created_at := now
        updated_at := now } }

/-! ## Orchestrator (`DomainMappingSkill.process_conversation` and the two
response paths)

`self.conversations` is the process-wide session store.  Python mutates
the stored `ConversationContext` object in place, so every attribute
assignment is immediately visible through the store whether or not the
final `self.conversations[...] = context` line runs; the model therefore
writes the context back into the store at each mutation point.  The
Anthropic client is abstracted as the outcome of the single invocation the
turn makes. -/

/-- The `self.conversations` dict. -/
abbrev SessionStore := List (String × ConversationContext)

def storeLookup (store : SessionStore) (session_id : String) : Option ConversationContext :=
  (store.find? (fun kv => kv.1 = session_id)).map (·.2)

def storeSet (store : SessionStore) (session_id : String) (ctx : ConversationContext) :
    SessionStore :=
  match store with
  | [] => [(session_id, ctx)]
  | kv :: rest =>
    if kv.1 = session_id then (session_id, ctx) :: rest
    else kv :: storeSet rest session_id ctx

/-- `_get_or_create_context`: a new context (state `INITIAL`) is stored
immediately on creation. -/
def get_or_create_context (store : SessionStore) (session_id : String) :
    ConversationContext × SessionStore :=
  match storeLookup store session_id with
  | some ctx => (ctx, store)
  | none =>
    let ctx : ConversationContext := { session_id := session_id, state := .initial }
    (ctx, storeSet store session_id ctx)

/-- Outcome of the buffered `messages.create` call: the full response text,
or the exception's `str(e)`. -/
inductive GatewayResult where
  | ok (text : String)
  | error (message : String)

/-- The degraded response assembled by the `except` handler of
`_get_complete_response`. -/
def errorResponse (errText : String) (state : ConversationState) : DomainMappingResponse :=
  { message := "I encountered an error: " ++ errText ++ ". Let\x27s try again."
    suggested_questions := ["Can you repeat your last message?"]
    current_state := state }

/-- The caller-override step of `process_conversation` (lines 85-89).
`if input_data.profession:` is a truthiness test; for a present, non-empty
`input_data.context` the loop body executes
`setattr(context, key, value, None)`, and builtin `setattr` applied to
four arguments raises `TypeError` unconditionally — so the documented
context override can never take effect. -/
def apply_input_overrides (context : ConversationContext) (input : DomainMappingInput) :
    ConversationContext × Option PyErr :=
  let context := match input.profession with
    | some p => if p.isEmpty then context else { context with profession := some p }
    | none => context
  match input.context with
  | some kvs =>
    if kvs.isEmpty then (context, none)
    else (context, some (.typeError "setattr expected at most 3 arguments, got 4"))
  | none => (context, none)

/-- The pre-gateway phase of `process_conversation` (lines 81-101):
fetch-or-create, caller overrides, history append, state transition.
Returns the context as mutated so far, the store reflecting those
mutations, and the uncaught `TypeError` when the context override was
attempted. -/
def prePhase (store : SessionStore) (input : DomainMappingInput) :
    ConversationContext × SessionStore × Option PyErr :=
  let ctx0 := (get_or_create_context store input.session_id).1
  let store0 := (get_or_create_context store input.session_id).2
  let overridden := apply_input_overrides ctx0 input
  match overridden.2 with
  | some e => (overridden.1, storeSet store0 input.session_id overridden.1, some e)
  | none =>
    let ctx2 := { overridden.1 with conversation_history :=
      overridden.1.conversation_history ++ [⟨"user", input.user_message⟩] }
    let ctx3 := determine_next_state ctx2 input.user_message
    (ctx3, storeSet store0 input.session_id ctx3, none)

/-- Post-gateway construction of `DomainMappingResponse` in
`_get_complete_response` (lines 227-237): each `response_data.get`
can raise `AttributeError` on a non-dict payload, and the pydantic
constructor validates the field values. -/
def buildResponseFromPayload (response_data : Json) (context : ConversationContext)
    (now : Nat) : Except PyErr DomainMappingResponse := do
  let messageJ ← pyGet response_data "message" (.str "")
  let message ← match messageJ with
    | .str s => Except.ok s
    | _ => Except.error (PyErr.validationError "message")
  let suggestedJ ← pyGet response_data "suggested_questions" (.arr [])
  let suggested ← match suggestedJ with
    | .arr xs =>
      match xs.mapM (fun x => match x with | Json.str s => some s | _ => none) with
      | some l => Except.ok l
      | none => Except.error (PyErr.validationError "suggested_questions")
    | _ => Except.error (PyErr.validationError "suggested_questions")
  let needsJ ← pyGet response_data "needs_input_on" .null
  let needs_input_on ← match needsJ with
    | .null => Except.ok (none : Option (List String))
    | .arr xs =>
      match xs.mapM (fun x => match x with | Json.str s => some s | _ => none) with
      | some l => Except.ok (some l)
      | none => Except.error (PyErr.validationError "needs_input_on")
    | _ => Except.error (PyErr.validationError "needs_input_on")
  let examplesJ ← pyGet response_data "examples" .null
  let examples ← match examplesJ with
    | .null => Except.ok (none : Option (List Json))
    | .arr xs =>
      if xs.all (fun x => match x with | Json.obj _ => true | _ => false) then
        Except.ok (some xs)
      else Except.error (PyErr.validationError "examples")
    | _ => Except.error (PyErr.validationError "examples")
  let base : DomainMappingResponse :=
    { message := message
      suggested_questions := suggested
      current_state := context.state
      needs_input_on := needs_input_on
      examples := examples }
  if context.state = ConversationState.complete then
    Except.ok { base with content_schema := some (build_content_schema context now) }
  else
    Except.ok base

/-- One buffered turn: `process_conversation(input, stream=False)`
followed by `_get_complete_response`.  The first component is
`.error e` when an exception escapes the whole call (the override
`TypeError`, or prompt-generation `KeyError`) and `.ok response`
otherwise; the second component is the session store as left behind
(in-place mutations persist even on the error paths). -/
def process_turn_buffered (store : SessionStore) (input : DomainMappingInput)
    (gateway : GatewayResult) (now : Nat) :
    Except PyErr DomainMappingResponse × SessionStore :=
  match prePhase store input with
  | (_, store1, some e) => (.error e, store1)
  | (ctx, store1, none) =>
    match generate_prompt_for_state ctx input.user_message with
    | .error e => (.error e, store1)
    | .ok _prompt =>
      match gateway with
      | .error msg => (.ok (errorResponse msg ctx.state), store1)
      | .ok text =>
        let response_data := parse_claude_response text
        let (ctx2, merr) := update_context_from_response ctx response_data
        let store2 := storeSet store1 input.session_id ctx2
        match merr with
        | some e => (.ok (errorResponse e.toStr ctx2.state), store2)
        | none =>
          match buildResponseFromPayload response_data ctx2 now with
          | .error e => (.ok (errorResponse e.toStr ctx2.state), store2)
          | .ok resp => (.ok resp, store2)

/-! ## Streaming path (`DomainMappingSkill._stream_response`) -/

/-- Outcome of the streaming invocation: the text deltas received before
the stream either raised or completed. -/
inductive StreamGateway where
  | failure (chunks : List String) (error_message : String)
  | success (chunks : List String)

/-- The sequence of `StreamingResponse.type` tags yielded by
`_stream_response` (lines 110-190), with the context as updated.  One
`message` event per delta; on success a `state_change`, a `schema_update`
iff the state is then `COMPLETE`, and a `complete` sentinel; any exception
(from the stream itself or from parsing/merging) is answered by the
`except` handler's single extra `message` event and nothing further. -/
def stream_events (context : ConversationContext) (gw : StreamGateway) :
    List StreamEventType × ConversationContext :=
  match gw with
  | .failure chunks _ =>
    (chunks.map (fun _ => StreamEventType.message) ++ [StreamEventType.message], context)
  | .success chunks =>
    let accumulated := String.join chunks
    let response_data := parse_claude_response accumulated
    let updated := update_context_from_response context response_data
    match updated.2 with
    | some _ =>
      (chunks.map (fun _ => StreamEventType.message) ++ [StreamEventType.message],
       updated.1)
    | none =>
      (chunks.map (fun _ => StreamEventType.message) ++ [StreamEventType.state_change] ++
        (if updated.1.state = ConversationState.complete then
          [StreamEventType.schema_update] else []) ++
        [StreamEventType.complete], updated.1)

/-- The order invariant claimed for a streamed turn: zero or more
`message` events, then exactly one `state_change`, then `schema_update`
exactly when the terminal state was reached, then exactly one `complete`
as the last event. -/
def streamOrderOk (events : List StreamEventType) (schemaExpected : Bool) : Bool :=
  events.dropWhile (fun e => e = StreamEventType.message) =
    [StreamEventType.state_change] ++
    (if schemaExpected then [StreamEventType.schema_update] else []) ++
    [StreamEventType.complete]

/-! ## Typed views of the merge loops

`updateEntities` / `updateRelationships` are the entity and relationship
`for` loops of `_update_context_from_response`, seen on already-validated
payload items (the shape the merge claims quantify over). -/

def entityIds (es : List EntitySchema) : List String := es.map (fun e => e.id)

/-- Index of the first entity carrying the given id (which is where the
source's `next(...)` / `list.index(...)` pair lands, see
`mergeEntity_eq`). -/
def firstIdxOfId : List EntitySchema → String → Nat
  | [], _ => 0
  | e :: rest, i => if e.id = i then 0 else firstIdxOfId rest i + 1

def updateEntities (es : List EntitySchema) (payload : List EntitySchema) :
    List EntitySchema :=
  payload.foldl mergeEntity es

def relationshipIds (rs : List RelationshipSchema) : List String := rs.map (fun r => r.id)

def updateRelationships (rs : List RelationshipSchema) (payload : List RelationshipSchema) :
    List RelationshipSchema :=
  payload.foldl mergeRelationship rs

lemma entityIds_cons (x : EntitySchema) (t : List EntitySchema) :
    entityIds (x :: t) = x.id :: entityIds t := rfl

lemma mergeEntity_cons_ne (x : EntitySchema) (t : List EntitySchema) (e : EntitySchema)
    (hx : x.id ≠ e.id) : mergeEntity (x :: t) e = x :: mergeEntity t e := by
  unfold mergeEntity
  simp only [List.find?_cons, decide_eq_false hx]
  cases hf : List.find? (fun v => v.id = e.id) t with
  | none => rfl
  | some ex =>
    have hex : ex.id = e.id := by simpa using List.find?_some hf
    have hxe : x ≠ ex := fun h => hx (h ▸ hex)
    simp [listIdxOf, hxe]

/-- The source's replace-or-append, written as one equation: an entity
whose id is already present replaces the first entity with that id, in
place; otherwise it is appended. -/
lemma mergeEntity_eq (es : List EntitySchema) (e : EntitySchema) :
    mergeEntity es e =
      if e.id ∈ entityIds es then es.set (firstIdxOfId es e.id) e else es ++ [e] := by
  induction es with
  | nil => simp [mergeEntity, entityIds]
  | cons x t ih =>
    by_cases hx : x.id = e.id
    · have hm : e.id ∈ entityIds (x :: t) := by
        rw [entityIds_cons, ← hx]
        exact List.mem_cons_self x.id (entityIds t)
      rw [if_pos hm]
      have hidx : firstIdxOfId (x :: t) e.id = 0 := by simp [firstIdxOfId, hx]
      rw [hidx]
      unfold mergeEntity
      simp [List.find?_cons, hx, listIdxOf]
    · rw [mergeEntity_cons_ne x t e hx, ih]
      by_cases hmem : e.id ∈ entityIds t
      · have hm : e.id ∈ entityIds (x :: t) := by
          rw [entityIds_cons]; exact List.mem_cons_of_mem x.id hmem
        rw [if_pos hmem, if_pos hm]
        have hidx : firstIdxOfId (x :: t) e.id = firstIdxOfId t e.id + 1 := by
          simp [firstIdxOfId, hx]
        rw [hidx]
        rfl
      · have hm : e.id ∉ entityIds (x :: t) := by
          rw [entityIds_cons]
          intro hc
          rcases List.mem_cons.mp hc with h1 | h1
          · exact hx h1.symm
          · exact hmem h1
        rw [if_neg hmem, if_neg hm]
        rfl

lemma firstIdxOfId_get (es : List EntitySchema) (i : String) (h : i ∈ entityIds es) :
    (entityIds es).get? (firstIdxOfId es i) = some i := by
  induction es with
  | nil => simp [entityIds] at h
  | cons x t ih =>
    by_cases hx : x.id = i
    · rw [entityIds_cons]
      have hidx : firstIdxOfId (x :: t) i = 0 := by simp [firstIdxOfId, hx]
      rw [hidx]
      simp [hx]
    · have h' : i ∈ entityIds t := by
        rw [entityIds_cons] at h
        rcases List.mem_cons.mp h with h1 | h1
        · exact absurd h1.symm hx
        · exact h1
      rw [entityIds_cons]
      have hidx : firstIdxOfId (x :: t) i = firstIdxOfId t i + 1 := by
        simp [firstIdxOfId, hx]
      rw [hidx]
      simpa using ih h'

lemma set_same {α : Type _} (l : List α) (i : Nat) (a : α) (h : l.get? i = some a) :
    l.set i a = l := by
  induction l generalizing i with
  | nil => simp at h
  | cons x t ih =>
    cases i with
    | zero => simp only [List.get?_cons_zero, Option.some.injEq] at h; simp [h]
    | succ n =>
      simp only [List.get?_cons_succ] at h
      simp [List.set, ih n h]

lemma entityIds_merge (es : List EntitySchema) (e : EntitySchema) :
    entityIds (mergeEntity es e) =
      if e.id ∈ entityIds es then entityIds es else entityIds es ++ [e.id] := by
  rw [mergeEntity_eq]
  by_cases h : e.id ∈ entityIds es
  · rw [if_pos h, if_pos h]
    have hset : entityIds (es.set (firstIdxOfId es e.id) e) =
        (entityIds es).set (firstIdxOfId es e.id) e.id := by
      simp [entityIds]
    rw [hset, set_same _ _ _ (firstIdxOfId_get es e.id h)]
  · rw [if_neg h, if_neg h]
    simp [entityIds]

lemma nodup_entityIds_merge (es : List EntitySchema) (e : EntitySchema)
    (h : (entityIds es).Nodup) : (entityIds (mergeEntity es e)).Nodup := by
  rw [entityIds_merge]
  by_cases hm : e.id ∈ entityIds es
  · simpa [hm] using h
  · simp [hm, List.nodup_append, h]

lemma nodup_entityIds_update (payload : List EntitySchema) :
    ∀ es : List EntitySchema, (entityIds es).Nodup →
      (entityIds (updateEntities es payload)).Nodup := by
  induction payload with
  | nil => intro es h; simpa [updateEntities] using h
  | cons p rest ih =>
    intro es h
    simpa [updateEntities] using ih (mergeEntity es p) (nodup_entityIds_merge es p h)

lemma get?_merge_of_ne (es : List EntitySchema) (e : EntitySchema) (i : Nat)
    (en : EntitySchema) (hget : es.get? i = some en) (hne : en.id ≠ e.id) :
    (mergeEntity es e).get? i = some en := by
  rw [mergeEntity_eq]
  by_cases hm : e.id ∈ entityIds es
  · simp only [hm, if_true]
    have hidx : firstIdxOfId es e.id ≠ i := by
      intro hEq
      have h1 : (entityIds es).get? (firstIdxOfId es e.id) = some e.id :=
        firstIdxOfId_get es e.id hm
      have h2 : (entityIds es).get? i = some en.id := by
        show (es.map (fun e => e.id)).get? i = some en.id
        rw [List.get?_map, hget]
        rfl
      rw [hEq, h2] at h1
      exact hne (Option.some.inj h1)
    rw [List.get?_set_ne _ _ hidx]
    exact hget
  · simp only [hm, if_false]
    have hlt : i < es.length := by
      rcases List.get?_eq_some.mp hget with ⟨hl, _⟩
      exact hl
    rw [List.get?_append hlt]
    exact hget

lemma get?_update_of_ne (payload : List EntitySchema) :
    ∀ (es : List EntitySchema) (i : Nat) (en : EntitySchema),
      es.get? i = some en → (∀ e ∈ payload, en.id ≠ e.id) →
      (updateEntities es payload).get? i = some en := by
  induction payload with
  | nil => intro es i en h _; simpa [updateEntities] using h
  | cons p rest ih =>
    intro es i en h hall
    have h1 : (mergeEntity es p).get? i = some en :=
      get?_merge_of_ne es p i en h (hall p (List.mem_cons_self p rest))
    simpa [updateEntities] using
      ih (mergeEntity es p) i en h1 (fun e he => hall e (List.mem_cons_of_mem p he))

/-- The source's skip-or-append for relationships, as one equation. -/
lemma mergeRelationship_eq (rs : List RelationshipSchema) (r : RelationshipSchema) :
    mergeRelationship rs r =
      if r.id ∈ relationshipIds rs then rs else rs ++ [r] := by
  unfold mergeRelationship
  rcases hf : rs.find? (fun x => x.id = r.id) with _ | ex
  · have hmem : r.id ∉ relationshipIds rs := by
      intro hmem
      obtain ⟨x, hx, hxid⟩ := List.mem_map.mp hmem
      exact (List.find?_eq_none.mp hf x hx) (by simp [hxid])
    rw [hf, if_neg hmem]
  · have hex : ex.id = r.id := by simpa using List.find?_some hf
    have hmem : r.id ∈ relationshipIds rs :=
      hex ▸ List.mem_map_of_mem (fun x => x.id) (List.mem_of_find?_eq_some hf)
    rw [hf, if_pos hmem]

lemma updateRelationships_prefix (payload : List RelationshipSchema) :
    ∀ rs : List RelationshipSchema,
      ∃ appended, updateRelationships rs payload = rs ++ appended := by
  induction payload with
  | nil => intro rs; exact ⟨[], by simp [updateRelationships]⟩
  | cons p rest ih =>
    intro rs
    obtain ⟨s1, hs1⟩ := ih (mergeRelationship rs p)
    have hstep : updateRelationships rs (p :: rest) =
        updateRelationships (mergeRelationship rs p) rest := by
      simp [updateRelationships]
    rw [hstep, hs1, mergeRelationship_eq]
    by_cases hm : p.id ∈ relationshipIds rs
    · exact ⟨s1, by simp [hm]⟩
    · exact ⟨[p] ++ s1, by simp [hm]⟩

/-! # Claims -/

/-- C7: for every model output on which the skill's decode step
(fence extraction, strip, `json.loads`) fails, `_parse_claude_response`
does not raise and returns the fallback result whose `message` is the raw
input string, whose `suggested_questions` list is empty, and whose state
marker is the distinguished value `"unknown"`. -/
theorem claim7_malformed_payload_safety (s : String)
    (h : jsonLoads (extract_json_str s) = none) :
    parse_claude_response s =
      Json.obj [("message", Json.str s),
                ("suggested_questions", Json.arr []),
                ("current_state", Json.str "unknown")] := by
  unfold parse_claude_response
  rw [h]

/-- Witness for C7 at the spec's literal input `"not json at all"`. -/
theorem claim7_witness :
    jsonLoads (extract_json_str "not json at all") = none ∧
    parse_claude_response "not json at all" =
      Json.obj [("message", Json.str "not json at all"),
                ("suggested_questions", Json.arr []),
                ("current_state", Json.str "unknown")] :=
  ⟨rfl, claim7_malformed_payload_safety "not json at all" rfl⟩

/-- C8: a payload wrapped in a ```` ```json ```` fence (possibly
surrounded by prose) has its interior extracted before decoding; in
particular the spec's example decodes to a result whose `message` field
is `"hi"`. -/
theorem claim8_fenced_payload_extraction :
    extract_json_str "```json\n\x7b\"message\":\"hi\"\x7d\n```" =
      "\x7b\"message\":\"hi\"\x7d" ∧
    parse_claude_response "```json\n\x7b\"message\":\"hi\"\x7d\n```" =
      Json.obj [("message", Json.str "hi")] ∧
    parse_claude_response
        "Here is the schema step:\n```json\n\x7b\"message\":\"hi\"\x7d\n```\nTell me more." =
      Json.obj [("message", Json.str "hi")] :=
  ⟨rfl, rfl, rfl⟩

/-- C4: the state-transition function is monotone in the canonical order
`INITIAL = 0 … COMPLETE = 6`: it never returns an earlier state, each turn
either leaves the context unchanged or advances the state by exactly one
step, and `COMPLETE` is a fixed point. -/
theorem claim4_state_monotonicity (context : ConversationContext) (user_message : String) :
    context.state.index ≤ (determine_next_state context user_message).state.index ∧
    (determine_next_state context user_message = context ∨
      (determine_next_state context user_message).state.index = context.state.index + 1) ∧
    (context.state = ConversationState.complete →
      determine_next_state context user_message = context) := by
  obtain ⟨sid, st, prof, pt, de, dr, ch, nc, sm⟩ := context
  cases st with
  | initial =>
    refine ⟨?_, Or.inr ?_, by simp⟩ <;>
      simp [determine_next_state, ConversationState.index]
  | discovering_profession =>
    simp only [determine_next_state]
    split
    · exact ⟨by simp [ConversationState.index], Or.inr (by simp [ConversationState.index]), by simp⟩
    · exact ⟨le_refl _, Or.inl rfl, by simp⟩
  | discovering_entities =>
    simp only [determine_next_state]
    split
    · exact ⟨by simp [ConversationState.index], Or.inr (by simp [ConversationState.index]), by simp⟩
    · exact ⟨le_refl _, Or.inl rfl, by simp⟩
  | discovering_fields =>
    simp only [determine_next_state]
    split
    · exact ⟨by simp [ConversationState.index], Or.inr (by simp [ConversationState.index]), by simp⟩
    · exact ⟨le_refl _, Or.inl rfl, by simp⟩
  | discovering_relationships =>
    simp only [determine_next_state]
    split
    · exact ⟨by simp [ConversationState.index], Or.inr (by simp [ConversationState.index]), by simp⟩
    · exact ⟨le_refl _, Or.inl rfl, by simp⟩
  | validating =>
    simp only [determine_next_state]
    split
    · exact ⟨by simp [ConversationState.index], Or.inr (by simp [ConversationState.index]), by simp⟩
    · exact ⟨le_refl _, Or.inl rfl, by simp⟩
  | complete =>
    exact ⟨le_refl _, Or.inl rfl, fun _ => rfl⟩

/-- Witness for C4: a concrete turn out of `VALIDATING` on the keyword
`"confirm"`, and a concrete turn at the terminal state. -/
theorem claim4_witness :
    ({ session_id := "s", state := ConversationState.validating } :
        ConversationContext).state.index ≤
      (determine_next_state
        { session_id := "s", state := ConversationState.validating } "confirm").state.index ∧
    determine_next_state
        { session_id := "s", state := ConversationState.complete } "confirm" =
      { session_id := "s", state := ConversationState.complete } :=
  ⟨(claim4_state_monotonicity
      { session_id := "s", state := ConversationState.validating } "confirm").1,
   (claim4_state_monotonicity
      { session_id := "s", state := ConversationState.complete } "confirm").2.2 rfl⟩

/-- C5: merging payload entities replaces by id, in place, and appends new
ids; starting from a context whose entity ids are distinct, the result's
ids stay distinct (at most one entity per id) and every entity whose id
the payload does not mention keeps its value and its position. -/
theorem claim5_entity_replace_by_id (es payload : List EntitySchema)
    (hnodup : (entityIds es).Nodup) :
    (∀ e : EntitySchema, e.id ∈ entityIds es →
      mergeEntity es e = es.set (firstIdxOfId es e.id) e) ∧
    (∀ e : EntitySchema, e.id ∉ entityIds es → mergeEntity es e = es ++ [e]) ∧
    (entityIds (updateEntities es payload)).Nodup ∧
    (∀ (i : Nat) (en : EntitySchema), es.get? i = some en →
      (∀ e ∈ payload, en.id ≠ e.id) →
      (updateEntities es payload).get? i = some en) := by
  refine ⟨fun e he => ?_, fun e he => ?_,
          nodup_entityIds_update payload es hnodup,
          fun i en h1 h2 => get?_update_of_ne payload es i en h1 h2⟩
  · rw [mergeEntity_eq, if_pos he]
  · rw [mergeEntity_eq, if_neg he]

/-- The spec's replace-by-id test data: an entity with id `"a"` and no
fields, and its payload update carrying one field. -/
def entA : EntitySchema := { id := "a", name := "A", plural_name := "As" }

def fieldF1 : FieldSchema :=
  { id := "f1", name := "f1", label := "F1", type := .text, required := true }

def entA1 : EntitySchema := { id := "a", name := "A", plural_name := "As", fields := [fieldF1] }

/-- Witness for C5: merging `{id:"a", fields:[f1]}` over a context holding
`{id:"a", fields:[]}` keeps the ids unique, and the result is exactly one
entity with id `"a"` and field list `[f1]`, at the same position. -/
theorem claim5_witness :
    (entityIds [entA]).Nodup ∧
    (entityIds (updateEntities [entA] [entA1])).Nodup ∧
    updateEntities [entA] [entA1] = [entA1] :=
  ⟨by decide, (claim5_entity_replace_by_id [entA] [entA1] (by decide)).2.2.1, by decide⟩

/-- C6: merging payload relationships skips by id — when a relationship
with the same id already exists the payload item is discarded and the
list is returned unchanged — and appends relationships with new ids; the
pre-existing relationships are left byte-for-byte unchanged (the result
always extends the existing list). -/
theorem claim6_relationship_skip_by_id (rs payload : List RelationshipSchema) :
    (∀ r : RelationshipSchema, r.id ∈ relationshipIds rs →
      mergeRelationship rs r = rs) ∧
    (∀ r : RelationshipSchema, r.id ∉ relationshipIds rs →
      mergeRelationship rs r = rs ++ [r]) ∧
    (∃ appended : List RelationshipSchema,
      updateRelationships rs payload = rs ++ appended) := by
  refine ⟨fun r h => ?_, fun r h => ?_, updateRelationships_prefix payload rs⟩
  · rw [mergeRelationship_eq, if_pos h]
  · rw [mergeRelationship_eq, if_neg h]

/-- The spec's skip-by-id test data: two different relationships sharing
id `"r1"`. -/
def relR1 : RelationshipSchema :=
  { id := "r1", type := .one_to_many, from_entity := "a", to_entity := "b", label := "l" }

def relR1x : RelationshipSchema :=
  { id := "r1", type := .many_to_many, from_entity := "c", to_entity := "d", label := "x" }

/-- Witness for C6: merging a different relationship that also has id
`"r1"` over a context already containing `"r1"` leaves the context
unchanged. -/
theorem claim6_witness :
    mergeRelationship [relR1] relR1x = [relR1] ∧
    updateRelationships [relR1] [relR1x] = [relR1] :=
  ⟨(claim6_relationship_skip_by_id [relR1] [relR1x]).1 relR1x (by decide), by decide⟩

/-- The failing input for C3: a session in `DISCOVERING_RELATIONSHIPS`
with one discovered entity (no suggestion pattern matches, so the
suggestions dump is `[]`). -/
def ctxRelPhase : ConversationContext :=
  { session_id := "s", state := .discovering_relationships,
    discovered_entities := [{ id := "photo", name := "Photo", plural_name := "Photos" }] }

/-- A contrasting input in `DISCOVERING_PROFESSION`, where the prompt does
end with the user message. -/
def ctxProfPhase : ConversationContext :=
  { session_id := "s", state := .discovering_profession }

set_option maxRecDepth 100000 in
/-- C3 (code bug): in the `DISCOVERING_RELATIONSHIPS` state the generated
prompt neither ends with nor even contains the user message — the
`+ f"\n\nUser said: ..."` in the source sits on its own line after the
`return` expression is complete and is dead code — the prompt instead ends
with the suggested-relationships dump.  The `DISCOVERING_PROFESSION`
branch, for contrast, does append the user message. -/
theorem claim3_relationship_prompt_drops_user_message :
    (generate_prompt_for_state ctxRelPhase "hello").toOption.map
        (fun p => (strEndsWith p "hello", strContains p "User said")) =
      some (false, false) ∧
    (generate_prompt_for_state ctxRelPhase "hello").toOption.map
        (fun p => strEndsWith p "\n\nSuggested relationships: []") = some true ∧
    (generate_prompt_for_state ctxProfPhase "hello").toOption.map
        (fun p => strEndsWith p "\n\nUser said: hello") = some true :=
  ⟨rfl, rfl, rfl⟩

lemma apply_input_overrides_snd_typeError (c : ConversationContext)
    (input : DomainMappingInput) (kvs : List (String × Json))
    (hctx : input.context = some kvs) (hempty : kvs.isEmpty = false) :
    (apply_input_overrides c input).2 =
      some (.typeError "setattr expected at most 3 arguments, got 4") := by
  simp [apply_input_overrides, hctx, hempty]

lemma prePhase_typeError (store : SessionStore) (input : DomainMappingInput)
    (kvs : List (String × Json)) (hctx : input.context = some kvs)
    (hempty : kvs.isEmpty = false) :
    (prePhase store input).2.2 =
      some (.typeError "setattr expected at most 3 arguments, got 4") := by
  have ha := apply_input_overrides_snd_typeError
    (get_or_create_context store input.session_id).1 input kvs hctx hempty
  unfold prePhase
  simp only [ha]

/-- C9: a present, non-empty caller-supplied `context` map makes
`process_conversation` raise `TypeError` (builtin `setattr` called with
four arguments) whatever the gateway would have answered, so the
documented context override can never take effect and the exception is
not converted into a degraded response. -/
theorem claim9_context_override_type_error (store : SessionStore)
    (input : DomainMappingInput) (gateway : GatewayResult) (now : Nat)
    (kvs : List (String × Json)) (hctx : input.context = some kvs) (hne : kvs ≠ []) :
    (process_turn_buffered store input gateway now).1 =
      Except.error (.typeError "setattr expected at most 3 arguments, got 4") := by
  have hempty : kvs.isEmpty = false := by
    cases kvs with
    | nil => exact absurd rfl hne
    | cons a l => rfl
  have h := prePhase_typeError store input kvs hctx hempty
  rcases hp : prePhase store input with ⟨c, s, o⟩
  rw [hp] at h
  have ho : o = some (PyErr.typeError "setattr expected at most 3 arguments, got 4") := h
  subst ho
  unfold process_turn_buffered
  rw [hp]

/-- The caller-supplied-context input from the repository's own test
fixture (`context={"location": "New York"}`). -/
def inputC9 : DomainMappingInput :=
  { user_message := "hi", session_id := "s",
    context := some [("location", Json.str "New York")] }

/-- Witness for C9 at the test fixture's input. -/
theorem claim9_witness :
    (process_turn_buffered [] inputC9 (.ok "\x7b\x7d") 0).1 =
      Except.error (.typeError "setattr expected at most 3 arguments, got 4") :=
  claim9_context_override_type_error [] inputC9 (.ok "\x7b\x7d") 0
    [("location", Json.str "New York")] rfl (List.cons_ne_nil _ _)

/-- A plain turn input with no caller-supplied overrides. -/
def inputSimple : DomainMappingInput := { user_message := "hi", session_id := "s" }

/-- C10: a model output that is valid JSON but not a JSON object (here the
top-level array `[]`) is returned by the parser unvalidated; the buffered
path's subsequent dict-style `.get` access raises `AttributeError`, which
the generic handler converts into the apologetic error response — not the
raw-text graceful degradation — and the discovered entities and
relationships are left unchanged. -/
theorem claim10_non_dict_payload_apologetic :
    parse_claude_response "[]" = Json.arr [] ∧
    (process_turn_buffered [] inputSimple (.ok "[]") 0).1 =
      Except.ok (errorResponse "\x27list\x27 object has no attribute \x27get\x27"
        ConversationState.discovering_profession) ∧
    (errorResponse "\x27list\x27 object has no attribute \x27get\x27"
        ConversationState.discovering_profession).message ≠ "[]" ∧
    (storeLookup (process_turn_buffered [] inputSimple (.ok "[]") 0).2 "s").map
        (fun c => (c.discovered_entities, c.discovered_relationships)) =
      some ([], []) :=
  ⟨rfl, rfl, by decide, rfl⟩

/-- C1 counterexample: on a fresh session a turn whose gateway invocation
fails still advances the stored state from `INITIAL` to
`DISCOVERING_PROFESSION` and appends the user message to the stored
history, while returning the apologetic degraded response — the
conversation state and context are not exactly what they were before the
turn. -/
theorem claim1_counterexample :
    storeLookup [] "s" = none ∧
    (get_or_create_context [] "s").1.state = ConversationState.initial ∧
    (process_turn_buffered [] inputSimple (.error "boom") 0).1 =
      Except.ok (errorResponse "boom" ConversationState.discovering_profession) ∧
    (storeLookup (process_turn_buffered [] inputSimple (.error "boom") 0).2 "s").map
        (fun c => (c.state, c.conversation_history)) =
      some (ConversationState.discovering_profession,
            [{ role := "user", content := "hi" }]) ∧
    ConversationState.discovering_profession ≠ ConversationState.initial :=
  ⟨rfl, rfl, rfl, rfl, by decide⟩

lemma determine_next_state_only_state (c : ConversationContext) (m : String) :
    (determine_next_state c m).discovered_entities = c.discovered_entities ∧
    (determine_next_state c m).discovered_relationships = c.discovered_relationships ∧
    (determine_next_state c m).conversation_history = c.conversation_history := by
  obtain ⟨sid, st, prof, pt, de, dr, ch, nc, sm⟩ := c
  cases st
  case initial => exact ⟨rfl, rfl, rfl⟩
  case discovering_profession =>
    simp only [determine_next_state]
    split <;> exact ⟨rfl, rfl, rfl⟩
  case discovering_entities =>
    simp only [determine_next_state]
    split <;> exact ⟨rfl, rfl, rfl⟩
  case discovering_fields =>
    simp only [determine_next_state]
    split <;> exact ⟨rfl, rfl, rfl⟩
  case discovering_relationships =>
    simp only [determine_next_state]
    split <;> exact ⟨rfl, rfl, rfl⟩
  case validating =>
    simp only [determine_next_state]
    split <;> exact ⟨rfl, rfl, rfl⟩
  case complete => exact ⟨rfl, rfl, rfl⟩

lemma apply_input_overrides_none (c : ConversationContext) (input : DomainMappingInput)
    (hctx : input.context = none ∨ input.context = some []) :
    (apply_input_overrides c input).2 = none ∧
    (apply_input_overrides c input).1.discovered_entities = c.discovered_entities ∧
    (apply_input_overrides c input).1.discovered_relationships =
      c.discovered_relationships ∧
    (apply_input_overrides c input).1.conversation_history = c.conversation_history := by
  unfold apply_input_overrides
  rcases hprof : input.profession with _ | p
  · rcases hctx with h | h <;> rw [h] <;> exact ⟨rfl, rfl, rfl, rfl⟩
  · by_cases hp : p.isEmpty <;>
      simp only [hp, Bool.false_eq_true, if_true, if_false] <;>
      rcases hctx with h | h <;> rw [h] <;> exact ⟨rfl, rfl, rfl, rfl⟩

lemma prePhase_ok (store : SessionStore) (input : DomainMappingInput)
    (hctx : input.context = none ∨ input.context = some []) :
    (prePhase store input).2.2 = none ∧
    (prePhase store input).1.discovered_entities =
      (get_or_create_context store input.session_id).1.discovered_entities ∧
    (prePhase store input).1.discovered_relationships =
      (get_or_create_context store input.session_id).1.discovered_relationships ∧
    (prePhase store input).1.conversation_history =
      (get_or_create_context store input.session_id).1.conversation_history ++
        [{ role := "user", content := input.user_message }] := by
  obtain ⟨ho, he, hr, hh⟩ := apply_input_overrides_none
    (get_or_create_context store input.session_id).1 input hctx
  unfold prePhase
  simp only [ho]
  obtain ⟨de, dr, dh⟩ := determine_next_state_only_state
    { (apply_input_overrides (get_or_create_context store input.session_id).1 input).1 with
        conversation_history :=
          (apply_input_overrides (get_or_create_context store input.session_id).1
            input).1.conversation_history ++
          [{ role := "user", content := input.user_message }] }
    input.user_message
  refine ⟨trivial, ?_, ?_, ?_⟩
  · exact de.trans he
  · exact dr.trans hr
  · rw [dh]
    show (apply_input_overrides (get_or_create_context store input.session_id).1
      input).1.conversation_history ++ _ = _
    rw [hh]

lemma process_turn_gateway_error (store : SessionStore) (input : DomainMappingInput)
    (err : String) (now : Nat)
    (hpre : (prePhase store input).2.2 = none)
    (hprompt : ∃ p, generate_prompt_for_state (prePhase store input).1
      input.user_message = Except.ok p) :
    process_turn_buffered store input (.error err) now =
      (Except.ok (errorResponse err (prePhase store input).1.state),
       (prePhase store input).2.1) := by
  obtain ⟨p, hp⟩ := hprompt
  rcases hq : prePhase store input with ⟨c, s, o⟩
  rw [hq] at hpre hp
  have ho : o = none := hpre
  subst ho
  have hp' : generate_prompt_for_state c input.user_message = Except.ok p := hp
  unfold process_turn_buffered
  simp only [hq, hp']

/-- C1 amended: when the gateway invocation raises, the caller receives
the degraded apologetic response and nothing from the model is merged —
the discovered entities and relationships are exactly the pre-turn ones —
but the user message has already been appended to the stored history and
the state transition for the turn has already been applied, so the state
reported (and kept) is the post-transition one, which may be later than
the pre-turn state. -/
theorem claim1_amended_gateway_failure (store : SessionStore)
    (input : DomainMappingInput) (err : String) (now : Nat)
    (hctx : input.context = none ∨ input.context = some [])
    (hprompt : ∃ p, generate_prompt_for_state (prePhase store input).1
      input.user_message = Except.ok p) :
    process_turn_buffered store input (.error err) now =
      (Except.ok (errorResponse err (prePhase store input).1.state),
       (prePhase store input).2.1) ∧
    (prePhase store input).1.discovered_entities =
      (get_or_create_context store input.session_id).1.discovered_entities ∧
    (prePhase store input).1.discovered_relationships =
      (get_or_create_context store input.session_id).1.discovered_relationships ∧
    (prePhase store input).1.conversation_history =
      (get_or_create_context store input.session_id).1.conversation_history ++
        [{ role := "user", content := input.user_message }] := by
  obtain ⟨h0, h1, h2, h3⟩ := prePhase_ok store input hctx
  exact ⟨process_turn_gateway_error store input err now h0 hprompt, h1, h2, h3⟩

/-- Witness for the amended C1 at a concrete failing turn. -/
theorem claim1_witness :
    process_turn_buffered [] inputSimple (.error "boom") 0 =
      (Except.ok (errorResponse "boom" (prePhase [] inputSimple).1.state),
       (prePhase [] inputSimple).2.1) :=
  (claim1_amended_gateway_failure [] inputSimple "boom" 0 (Or.inl rfl) ⟨_, rfl⟩).1

/-- A small context for the streaming-order statements. -/
def ctxStream : ConversationContext :=
  { session_id := "s", state := .discovering_entities }

/-- C2 counterexample: a streamed turn whose gateway invocation raises
before any delta yields exactly one `message` event (the apology) and
nothing else — no `state_change` and no `complete` — violating the order
invariant as stated for every turn. -/
theorem claim2_counterexample :
    (stream_events ctxStream (.failure [] "boom")).1 = [StreamEventType.message] ∧
    streamOrderOk [StreamEventType.message] true = false ∧
    streamOrderOk [StreamEventType.message] false = false :=
  ⟨rfl, by decide, by decide⟩

lemma dropWhile_message_replicate (n : Nat) (tail : List StreamEventType) :
    (List.replicate n StreamEventType.message ++
      (StreamEventType.state_change :: tail)).dropWhile
        (fun e => e = StreamEventType.message) =
      StreamEventType.state_change :: tail := by
  induction n with
  | zero => simp [List.dropWhile_cons]
  | succ m ih =>
    rw [List.replicate_succ, List.cons_append, List.dropWhile_cons]
    simp only [decide_eq_true_eq, if_pos rfl]
    exact ih

/-- C2 amended: on every streamed turn on which the stream completes and
the parse-and-merge step raises no exception, the yielded event sequence
is zero or more `message` events, then exactly one `state_change`, then
`schema_update` exactly when the terminal state holds, then exactly one
`complete` as the last event. -/
theorem claim2_amended_stream_order (context : ConversationContext)
    (chunks : List String)
    (hmerge : (update_context_from_response context
      (parse_claude_response (String.join chunks))).2 = none) :
    streamOrderOk (stream_events context (.success chunks)).1
      (decide ((stream_events context (.success chunks)).2.state =
        ConversationState.complete)) = true := by
  unfold stream_events
  simp only [hmerge]
  by_cases hc : (update_context_from_response context
      (parse_claude_response (String.join chunks))).1.state =
      ConversationState.complete <;>
    simp [streamOrderOk, hc, dropWhile_message_replicate, List.append_assoc]

/-- Witness for the amended C2 on a concrete streamed turn. -/
theorem claim2_witness :
    streamOrderOk (stream_events ctxStream (.success ["hello"])).1
      (decide ((stream_events ctxStream (.success ["hello"])).2.state =
        ConversationState.complete)) = true :=
  claim2_amended_stream_order ctxStream ["hello"] rfl

end DomainMapping
